import Mathlib

/-!
# CLARA — verification of the risk-engine and alert-agent specification

Shallow embedding of the deterministic core of the CLARA backend
(`backend/services/portfolio_engine.py`, `breach_monitor.py`,
`alert_agent.py`, `stock_data.py`, `sensitivity_analyzer.py`,
`routers/portfolio.py`, `routers/alerts.py`) together with theorems that
settle the frozen specification claims.

Conventions used throughout:

* Python `float` arithmetic is embedded as exact arithmetic: over `ℚ`
  for the pure formula-level functions, and over `ℝ` where the source
  calls `math.sqrt` (the VaR scaling).  Python's `round(x, n)` is
  round-half-to-even; it is embedded faithfully as such.
* External I/O (HTTP quote fetches, e-mail dispatch, `uuid`,
  `datetime.utcnow`, `random`) is passed in as explicit parameters /
  oracles, so stateful code becomes explicit state passing.
* Fallible code is embedded with `Except` / `Option`.
-/

namespace CLARA

/-! ## Rounding (Python `round(x, n)` — half to even), exact `ℚ` version -/

/-- Python's `round` to an integer: nearest integer, ties to even
(banker's rounding).  Exact-rational embedding of `round(x)`. -/
def pyRoundInt (x : ℚ) : ℤ :=
  let f := ⌊x⌋
  if x - f < 1/2 then f
  else if 1/2 < x - f then f + 1
  else if f % 2 = 0 then f else f + 1

/-- Python's `round(x, n)`: round to `n` decimal places, ties to even. -/
def pyRound (n : ℕ) (x : ℚ) : ℚ := (pyRoundInt (x * 10 ^ n) : ℚ) / 10 ^ n

/-- A rational is "rounded to cents" when `100·x` is an integer. -/
def cents (x : ℚ) : Prop := (x * 100).den = 1

instance : DecidablePred cents := fun x => inferInstanceAs (Decidable ((x * 100).den = 1))

/-! ## Risk Engine: price targets (`portfolio_engine.compute_price_targets`) -/

/-- Result record of `compute_price_targets`. -/
structure PriceTargets where
  sell_target : ℚ
  stop_loss : ℚ
  trailing_stop : ℚ
  bull_target : ℚ
  conservative_target : ℚ
deriving Repr, DecidableEq

/-- Embedding of `portfolio_engine.compute_price_targets`.

`analyst_target` is `Optional[float]`; Python's truthiness test
`analyst_target and analyst_target > current_price` is embedded as
"present, nonzero and greater than the current price".  The stop loss is
first rounded, then floored at `avg_cost * 0.85`, then rounded again —
exactly the statement order of the source. -/
def compute_price_targets (current_price avg_cost : ℚ) (beta : ℚ := 1)
    (analyst_target : Option ℚ := none) : PriceTargets :=
  let beta := max (1/10) beta
  let sell_target :=
    match analyst_target with
    | some t =>
        if t ≠ 0 ∧ t > current_price then t
        else pyRound 2 (current_price * (1 + 15/100 + beta * 5/100))
    | none => pyRound 2 (current_price * (1 + 15/100 + beta * 5/100))
  let stop_loss := pyRound 2 (current_price * (1 - 8/100 - beta * 2/100))
  let trailing_stop := pyRound 2 (max (avg_cost * 97/100) (current_price * 88/100))
  let bull_target := pyRound 2 (current_price * (1 + 30/100 + beta * 10/100))
  let conservative := pyRound 2 (current_price * 107/100)
  let breakeven := avg_cost
  let stop_loss := max stop_loss (breakeven * 85/100)
  let stop_loss := pyRound 2 stop_loss
  { sell_target := sell_target
    stop_loss := stop_loss
    trailing_stop := trailing_stop
    bull_target := bull_target
    conservative_target := conservative }

/-! ## Breach Monitor severity (`breach_monitor.BreachMonitor._calculate_severity`) -/

/-- Embedding of `BreachMonitor._calculate_severity`. -/
def calculate_severity (actual_value threshold : ℚ) : String :=
  let excess_pct := (actual_value - threshold) / threshold * 100
  if excess_pct < 10 then "low"
  else if excess_pct < 25 then "medium"
  else if excess_pct < 50 then "high"
  else "critical"

/-! ## Static company metadata (`stock_data.COMPANY_META`) -/

/-- One entry of `COMPANY_META`. -/
structure CompanyMeta where
  name : String
  sector : String
  base : ℚ
  beta : ℚ
deriving Repr, DecidableEq

/-- The `COMPANY_META` dict of `stock_data.py` as an association list in
source order (all 22 entries, with the exact sector labels of the
source). -/
def COMPANY_META_LIST : List (String × CompanyMeta) :=
  [("NVDA", ⟨"NVIDIA Corporation", "Technology", 875, 172/100⟩),
   ("AAPL", ⟨"Apple Inc.", "Technology", 189, 121/100⟩),
   ("MSFT", ⟨"Microsoft Corporation", "Technology", 415, 90/100⟩),
   ("GOOGL", ⟨"Alphabet Inc.", "Technology", 175, 105/100⟩),
   ("AMZN", ⟨"Amazon.com Inc.", "Consumer", 195, 115/100⟩),
   ("META", ⟨"Meta Platforms Inc.", "Technology", 510, 128/100⟩),
   ("TSLA", ⟨"Tesla Inc.", "Consumer", 245, 201/100⟩),
   ("JPM", ⟨"JPMorgan Chase & Co.", "Financials", 197, 110/100⟩),
   ("XOM", ⟨"Exxon Mobil Corporation", "Energy", 112, 85/100⟩),
   ("TSM", ⟨"Taiwan Semiconductor", "Technology", 155, 135/100⟩),
   ("AVGO", ⟨"Broadcom Inc.", "Technology", 145, 130/100⟩),
   ("LLY", ⟨"Eli Lilly and Company", "Healthcare", 780, 42/100⟩),
   ("V", ⟨"Visa Inc.", "Financials", 278, 95/100⟩),
   ("COST", ⟨"Costco Wholesale Corp.", "Consumer", 895, 78/100⟩),
   ("WMT", ⟨"Walmart Inc.", "Consumer", 88, 52/100⟩),
   ("JNJ", ⟨"Johnson & Johnson", "Healthcare", 152, 55/100⟩),
   ("BAC", ⟨"Bank of America Corp.", "Financials", 39, 135/100⟩),
   ("MA", ⟨"Mastercard Inc.", "Financials", 465, 98/100⟩),
   ("UNH", ⟨"UnitedHealth Group", "Healthcare", 520, 62/100⟩),
   ("HD", ⟨"Home Depot Inc.", "Consumer", 348, 105/100⟩),
   ("SPY", ⟨"S&P 500 ETF", "ETF", 510, 1⟩),
   ("QQQ", ⟨"Nasdaq 100 ETF", "ETF", 435, 112/100⟩)]

/-- `COMPANY_META.get(symbol)`. -/
def COMPANY_META (s : String) : Option CompanyMeta :=
  (COMPANY_META_LIST.find? (fun e => e.1 = s)).map (·.2)

/-! ## Portfolio store (`routers/portfolio.py`) -/

/-- `models.schemas.PortfolioPosition`. -/
structure PortfolioPosition where
  id : String
  symbol : String
  company : String
  shares : ℚ
  avg_cost : ℚ
  note : Option String
  sector : Option String
deriving Repr, DecidableEq

/-- `models.schemas.AddPositionRequest`. -/
structure AddPositionRequest where
  symbol : String
  shares : ℚ
  avg_cost : ℚ
  note : Option String
deriving Repr, DecidableEq

/-- Replace the first element satisfying `p` by `x` (models the in-place
mutation of the matching stored position object). -/
def replaceFirst (p : PortfolioPosition → Bool) (x : PortfolioPosition) :
    List PortfolioPosition → List PortfolioPosition
  | [] => []
  | a :: rest => if p a then x :: rest else a :: replaceFirst p x rest

/-- Embedding of `routers/portfolio.add_position`.

The store `_positions` is a `Dict[str, PortfolioPosition]`; it is embedded
as its list of values in insertion order.  `next(...)` picks the first
position with the requested symbol; on a merge that object is mutated in
place (replaced in the list), on a miss a fresh position (with the
oracle-supplied `uuid` as id) is appended.  Python rounds the merged
share count to 6 and the merged average cost to 4 decimal places.
`if req.note:` is Python truthiness — absent or empty notes keep the old
note. -/
def add_position (store : List PortfolioPosition) (req : AddPositionRequest)
    (newId : String) : List PortfolioPosition × PortfolioPosition :=
  match store.find? (fun p => p.symbol = req.symbol) with
  | some existing =>
      let old_cost_basis := existing.shares * existing.avg_cost
      let new_cost_basis := req.shares * req.avg_cost
      let total_shares := existing.shares + req.shares
      let new_avg_cost := (old_cost_basis + new_cost_basis) / total_shares
      let updated : PortfolioPosition :=
        { existing with
          shares := pyRound 6 total_shares
          avg_cost := pyRound 4 new_avg_cost
          note := match req.note with
                  | some n => if n ≠ "" then some n else existing.note
                  | none => existing.note }
      (replaceFirst (fun p => p.symbol = req.symbol) updated store, updated)
  | none =>
      let meta := COMPANY_META req.symbol
      let pos : PortfolioPosition :=
        { id := newId
          symbol := req.symbol
          company := (meta.map (·.name)).getD req.symbol
          shares := req.shares
          avg_cost := req.avg_cost
          note := req.note
          sector := meta.map (·.sector) }
      (store ++ [pos], pos)

/-! ## Quote cascade batch resolution (`stock_data.get_quotes_batch`) -/

/-- Embedding of `stock_data.get_quotes_batch` over an abstract quote
payload type `Q`.

`get_quote` performs network I/O, so it is passed in as the oracle
`fetch`, returning `Except` (an exception surfaces through
`asyncio.gather(..., return_exceptions=True)` as an `Exception` value);
`_build_simulated_quote` draws from `random`, so it is the oracle `sim`.
The result dict is embedded as a partial map built by the source's
`output[sym] = ...` loop over `zip(symbols, results)`. -/
def get_quotes_batch {Q : Type} (fetch : String → Except Unit Q) (sim : String → Q)
    (symbols : List String) : String → Option Q :=
  symbols.foldl
    (fun output sym =>
      Function.update output sym
        (some (match fetch sym with
               | .error _ => sim sym
               | .ok res => res)))
    (fun _ => none)

/-! ## Portfolio summary (`portfolio_engine.compute_portfolio_summary`) -/

/-- `EnrichedPosition` restricted to the fields that
`compute_portfolio_summary` reads. -/
structure SummaryPos where
  market_value : ℚ
  cost_basis : ℚ
  day_gain_loss : ℚ
  beta : ℚ
deriving Repr, DecidableEq

/-- Result of `compute_portfolio_summary` (`models.schemas.PortfolioSummary`). -/
structure PortfolioSummary where
  total_value : ℚ
  cost_basis : ℚ
  total_gain_loss : ℚ
  total_gain_loss_pct : ℚ
  day_gain_loss : ℚ
  portfolio_beta : ℚ
  positions_count : ℕ
  var_1d_95 : ℚ
  expected_shortfall : ℚ
  sharpe_ratio : Option ℚ
deriving Repr, DecidableEq

/-- Embedding of `portfolio_engine.compute_portfolio_summary`.  The
non-empty branch fills `sharpe_ratio` from `random.uniform(0.8, 2.1)`,
passed in as the oracle `sharpe`; the empty branch leaves it at the
schema default `None`. -/
def compute_portfolio_summary (sharpe : ℚ) (positions : List SummaryPos) : PortfolioSummary :=
  if positions = [] then
    { total_value := 0, cost_basis := 0, total_gain_loss := 0,
      total_gain_loss_pct := 0, day_gain_loss := 0, portfolio_beta := 0,
      positions_count := 0, var_1d_95 := 0, expected_shortfall := 0,
      sharpe_ratio := none }
  else
    let total_value := (positions.map (·.market_value)).sum
    let cost_basis := (positions.map (·.cost_basis)).sum
    let gain_loss := total_value - cost_basis
    let gain_loss_pct := if cost_basis ≠ 0 then gain_loss / cost_basis * 100 else 0
    let day_gain := (positions.map (·.day_gain_loss)).sum
    let portfolio_beta :=
      if total_value ≠ 0 then (positions.map (fun p => p.beta * p.market_value)).sum / total_value
      else 1
    let daily_vol := 12/1000 * portfolio_beta
    let var_1d_95 := pyRound 2 (total_value * daily_vol * (1645/1000))
    let es_95 := pyRound 2 (var_1d_95 * 125/100)
    { total_value := pyRound 2 total_value
      cost_basis := pyRound 2 cost_basis
      total_gain_loss := pyRound 2 gain_loss
      total_gain_loss_pct := pyRound 2 gain_loss_pct
      day_gain_loss := pyRound 2 day_gain
      portfolio_beta := pyRound 3 portfolio_beta
      positions_count := positions.length
      var_1d_95 := var_1d_95
      expected_shortfall := es_95
      sharpe_ratio := some (pyRound 2 sharpe) }

/-! ## Sensitivity analyzer (`sensitivity_analyzer.SensitivityAnalyzer._perturb_positions`) -/

/-- `EnrichedPosition` restricted to the fields `_perturb_positions`
touches (`beta`, `market_value`, `sector`); the remaining fields are
copied through `model_dump()` unchanged. -/
structure SPos where
  beta : ℚ
  market_value : ℚ
  sector : String
deriving Repr, DecidableEq

/-- Embedding of the per-position body of
`SensitivityAnalyzer._perturb_positions`. -/
def perturb_position (factor_name : String) (perturbation : ℚ) (pos : SPos) : SPos :=
  if factor_name = "equity_vol" then { pos with beta := pos.beta * (1 + perturbation) }
  else if factor_name = "beta" then { pos with beta := pos.beta * (1 + perturbation) }
  else if factor_name = "correlation" then
    { pos with beta := pos.beta * (1 + perturbation * 5/10) }
  else if factor_name = "concentration" then
    { pos with market_value := pos.market_value * (1 + perturbation) }
  else if factor_name = "rates" then
    if pos.sector = "Financial Services" ∨ pos.sector = "Real Estate" then
      { pos with beta := pos.beta * (1 + perturbation * 15/10) }
    else
      { pos with beta := pos.beta * (1 + perturbation * 5/10) }
  else pos

/-- Embedding of `SensitivityAnalyzer._perturb_positions`. -/
def perturb_positions (positions : List SPos) (factor_name : String)
    (perturbation : ℚ) : List SPos :=
  positions.map (perturb_position factor_name perturbation)

/-! ## VaR / Expected Shortfall (`portfolio_engine.compute_var`)

`compute_var` multiplies by `math.sqrt(10)`, so this part of the engine is
embedded over `ℝ`.  `rroundInt` / `rround` are the real-valued versions of
the Python `round` embedding above. -/

open scoped Classical in
/-- Python's `round` to an integer over `ℝ` (nearest, ties to even). -/
noncomputable def rroundInt (x : ℝ) : ℤ :=
  let f := ⌊x⌋
  if x - f < 1/2 then f
  else if 1/2 < x - f then f + 1
  else if f % 2 = 0 then f else f + 1

/-- Python's `round(x, n)` over `ℝ`. -/
noncomputable def rround (n : ℕ) (x : ℝ) : ℝ := (rroundInt (x * 10 ^ n) : ℝ) / 10 ^ n

/-- `EnrichedPosition` restricted to the fields `compute_var` reads. -/
structure VPos where
  market_value : ℝ
  beta : ℝ

/-- The deterministic fields of `models.schemas.VaRResult` produced by
`portfolio_engine.compute_var`.  The source additionally fills
`tail_loss_probability` and a simulated 48-point `intraday_history` from
`random.gauss` / `random.uniform`; those non-deterministic fields are
outside the embedding and no claim concerns them. -/
structure VaRNums where
  var_1d_95 : ℝ
  var_1d_99 : ℝ
  var_10d_95 : ℝ
  var_10d_99 : ℝ
  expected_shortfall_95 : ℝ
  expected_shortfall_99 : ℝ
  breach_probability : ℝ
  limit_var : ℝ

open scoped Classical in
/-- Embedding of `portfolio_engine.compute_var` (deterministic fields). -/
noncomputable def compute_var (positions : List VPos) : VaRNums :=
  let total_value := (positions.map (·.market_value)).sum
  let portfolio_beta :=
    if total_value ≠ 0 then (positions.map (fun p => p.beta * p.market_value)).sum / total_value
    else 1
  let daily_vol := 0.0126 * portfolio_beta
  let z_95 := (1.645 : ℝ)
  let z_99 := (2.326 : ℝ)
  let sqrt10 := Real.sqrt 10
  let var_1d_95 := rround 2 (total_value * daily_vol * z_95)
  let var_1d_99 := rround 2 (total_value * daily_vol * z_99)
  let var_10d_95 := rround 2 (var_1d_95 * sqrt10)
  let var_10d_99 := rround 2 (var_1d_99 * sqrt10)
  let es_95 := rround 2 (var_1d_95 * 1.25)
  let es_99 := rround 2 (var_1d_99 * 1.18)
  let limit_var := total_value * 0.05
  { var_1d_95 := var_1d_95
    var_1d_99 := var_1d_99
    var_10d_95 := var_10d_95
    var_10d_99 := var_10d_99
    expected_shortfall_95 := es_95
    expected_shortfall_99 := es_99
    breach_probability := if limit_var ≠ 0 then rround 4 (min 0.99 (var_1d_95 / limit_var)) else 0.5
    limit_var := rround 2 limit_var }

/-! ## `/api/portfolio/var` route (`routers/portfolio.get_var`) -/

/-- The price/beta slice of a quote dict, as consumed by
`enrich_position` on its way to `compute_var`. -/
structure QuoteLite where
  price : Option ℚ
  beta : Option ℚ
deriving Repr, DecidableEq

/-- `portfolio_engine.enrich_position` restricted to the two fields of
the result that `compute_var` reads: `market_value = round(shares*price, 2)`
with the price defaulting to the average cost, and the beta resolved as
`quote.get("beta") or COMPANY_META[...]["beta"] or 1.0` (Python `or`, so a
zero beta also falls through to the metadata). -/
noncomputable def enrich_var (pos : PortfolioPosition) (quote : Option QuoteLite) : VPos :=
  let price : ℚ := ((quote.bind (·.price)).getD pos.avg_cost)
  let metaBeta : ℚ := ((COMPANY_META pos.symbol).map (·.beta)).getD 1
  let beta : ℚ :=
    match quote.bind (·.beta) with
    | some b => if b ≠ 0 then b else metaBeta
    | none => metaBeta
  { market_value := rround 2 ((pos.shares : ℝ) * (price : ℝ)), beta := (beta : ℝ) }

/-- Embedding of the `GET /api/portfolio/var` handler
(`routers/portfolio.get_var`): an empty position store raises
`HTTPException(400, "No positions in portfolio")`, embedded as an
`Except.error`; otherwise the stored positions are enriched with the
batch-fetched quotes (oracle `quotes`) and handed to `compute_var`. -/
noncomputable def get_var_route (quotes : String → Option QuoteLite)
    (store : List PortfolioPosition) : Except (ℕ × String) VaRNums :=
  if store = [] then .error (400, "No positions in portfolio")
  else .ok (compute_var (store.map (fun p => enrich_var p (quotes p.symbol))))

/-! ## Alert agent (`services/alert_agent.AlertAgent`)

The agent's wall clock (`datetime.utcnow()`) is threaded as an explicit
rational `now`, measured in hours so that
`timedelta(hours=ALERT_COOLDOWN_HOURS)` is the constant `4`.  `uuid`
values and the e-mail dispatch result (`send_alert_email` is awaited I/O)
are oracles supplied per firing. -/

/-- `models.schemas.AlertType`. -/
inductive AlertType where
  | sell_target_hit
  | stop_loss_hit
  | trailing_stop_hit
  | bull_target_hit
  | daily_summary
deriving Repr, DecidableEq

/-- `models.schemas.AlertSeverity`. -/
inductive AlertSeverity where
  | critical
  | warning
  | success
  | info
deriving Repr, DecidableEq

/-- Embedding of `alert_agent._severity`. -/
def severity_of : AlertType → AlertSeverity
  | .stop_loss_hit => .critical
  | .trailing_stop_hit => .warning
  | .sell_target_hit => .success
  | .bull_target_hit => .success
  | .daily_summary => .info

/-- `config.settings.ALERT_COOLDOWN_HOURS` (in hours). -/
def ALERT_COOLDOWN_HOURS : ℚ := 4

/-- `models.schemas.AlertConfig` with its schema defaults. -/
structure AlertConfig where
  user_email : String := ""
  enabled : Bool := false
  check_interval_seconds : ℕ := 30
  alert_on_sell_target : Bool := true
  alert_on_stop_loss : Bool := true
  alert_on_trailing_stop : Bool := true
  alert_on_bull_target : Bool := false
  send_daily_summary : Bool := false
  daily_summary_time : String := "16:00"
  email_provider : String := "smtp"
deriving Repr, DecidableEq

/-- A registered holding: the `Dict[str, Any]` rows the routers register
with the agent, restricted to the keys the agent reads (all but `symbol`
are accessed with `.get`, hence optional). -/
structure Holding where
  symbol : String
  company : Option String := none
  current_price : Option ℚ := none
  market_value : Option ℚ := none
  avg_cost : Option ℚ := none
  shares : Option ℚ := none
  gain_loss : Option ℚ := none
  gain_loss_pct : Option ℚ := none
  sell_target : Option ℚ := none
  stop_loss : Option ℚ := none
  trailing_stop : Option ℚ := none
  bull_target : Option ℚ := none
deriving Repr, DecidableEq

/-- `models.schemas.InAppAlert`.  The human-readable `message` string
(pure float formatting via `f"${price:.2f}"`) is not modelled; no claim
concerns it. -/
structure InAppAlert where
  id : String
  timestamp : ℚ
  alert_type : AlertType
  symbol : String
  company : String
  trigger_price : ℚ
  current_price : ℚ
  severity : AlertSeverity
  acknowledged : Bool
  email_sent : Bool
deriving Repr, DecidableEq

/-- `models.schemas.AlertLogEntry` as returned by `send_alert_email`
(the e-mail collaborator): the fields the agent stores and reads back. -/
structure AlertLogEntry where
  sent : Bool
  provider : String
  error : Option String
deriving Repr, DecidableEq

/-- The mutable state of `AlertAgent` (`__init__`): configuration,
holdings registry, in-app alert ring buffer, e-mail audit log, the
cooldown registry `(symbol, alert_type) → datetime of last send`, and the
`alerts_today` counter.  `_start_time` (monotonic clock) is not part of
any claim and is omitted; `_running`/`status` are kept as the visible
status string. -/
structure AgentState where
  config : AlertConfig
  holdings : List Holding
  in_app_alerts : List InAppAlert
  email_logs : List AlertLogEntry
  cooldowns : String × AlertType → Option ℚ
  alerts_today : ℕ
  status : String

/-- `AlertAgent.__init__`: the freshly-constructed agent. -/
def AlertAgent_init : AgentState :=
  { config := {}
    holdings := []
    in_app_alerts := []
    email_logs := []
    cooldowns := fun _ => none
    alerts_today := 0
    status := "idle" }

/-- Embedding of `AlertAgent._can_send`: sendable when the key was never
fired, or when strictly more than the cooldown has elapsed. -/
def can_send (st : AgentState) (symbol : String) (alert_type : AlertType) (now : ℚ) : Bool :=
  match st.cooldowns (symbol, alert_type) with
  | none => true
  | some last_sent => decide (now - last_sent > ALERT_COOLDOWN_HOURS)

/-- Embedding of `AlertAgent._mark_sent`. -/
def mark_sent (st : AgentState) (symbol : String) (alert_type : AlertType) (now : ℚ) :
    AgentState :=
  { st with cooldowns := Function.update st.cooldowns (symbol, alert_type) (some now) }

/-- Embedding of `AlertAgent.reset_cooldown` (`dict.pop`). -/
def reset_cooldown (st : AgentState) (symbol : String) (alert_type : AlertType) : AgentState :=
  { st with cooldowns := Function.update st.cooldowns (symbol, alert_type) none }

/-- The e-mail back-fill loop of `_fire_alert`: set `email_sent` on the
first alert whose id matches, then `break`. -/
def set_email_sent : List InAppAlert → String → Bool → List InAppAlert
  | [], _, _ => []
  | a :: rest, i, v =>
      if a.id = i then { a with email_sent := v } :: rest
      else a :: set_email_sent rest i v

/-- Embedding of `AlertAgent._fire_alert`.

`emailLog` is the value the awaited `send_alert_email` call resolves to
(oracle; the dispatcher always returns a log entry rather than raising),
`newId` the `uuid4` draw, `now` the `datetime.utcnow()` reading.  The
cooldown is marked *before* the e-mail dispatch, so the resulting
cooldown table is the same whatever `emailLog` turns out to be.  The
in-app buffer is capped at 200 newest-first, the e-mail log at 500. -/
def fire_alert (emailLog : AlertLogEntry) (newId : String) (now : ℚ)
    (alert_type : AlertType) (holding : Holding)
    (trigger_price total_portfolio_value : ℚ) (st : AgentState) : AgentState :=
  let symbol := holding.symbol
  let company := holding.company.getD symbol
  let price := holding.current_price.getD trigger_price
  if can_send st symbol alert_type now then
    let st := mark_sent st symbol alert_type now
    let alert : InAppAlert :=
      { id := newId
        timestamp := now
        alert_type := alert_type
        symbol := symbol
        company := company
        trigger_price := trigger_price
        current_price := price
        severity := severity_of alert_type
        acknowledged := false
        email_sent := false }
    let st := { st with
      in_app_alerts := (alert :: st.in_app_alerts).take 200
      alerts_today := st.alerts_today + 1 }
    if st.config.enabled ∧ st.config.user_email ≠ "" then
      let st := { st with email_logs := (emailLog :: st.email_logs).take 500 }
      { st with in_app_alerts := set_email_sent st.in_app_alerts alert.id emailLog.sent }
    else st
  else st

/-- The flag-flipping loop of `AlertAgent.acknowledge_alert`. -/
def set_acknowledged : List InAppAlert → String → List InAppAlert
  | [], _ => []
  | a :: rest, i =>
      if a.id = i then { a with acknowledged := true } :: rest
      else a :: set_acknowledged rest i

/-- Embedding of `AlertAgent.acknowledge_alert` (returns whether an alert
with the id was found, plus the updated state). -/
def acknowledge_alert (st : AgentState) (alert_id : String) : Bool × AgentState :=
  if st.in_app_alerts.any (fun a => a.id = alert_id) then
    (true, { st with in_app_alerts := set_acknowledged st.in_app_alerts alert_id })
  else (false, st)

/-- Embedding of `AlertAgent.clear_all_alerts`. -/
def clear_all_alerts (st : AgentState) : AgentState := { st with in_app_alerts := [] }

/-- `models.schemas.UpdateAlertConfigRequest`: every field optional. -/
structure UpdateAlertConfigRequest where
  user_email : Option String := none
  enabled : Option Bool := none
  check_interval_seconds : Option ℕ := none
  alert_on_sell_target : Option Bool := none
  alert_on_stop_loss : Option Bool := none
  alert_on_trailing_stop : Option Bool := none
  alert_on_bull_target : Option Bool := none
  send_daily_summary : Option Bool := none
  daily_summary_time : Option String := none
  email_provider : Option String := none
deriving Repr, DecidableEq

/-- Embedding of `AlertAgent.update_config`: only non-`None` fields
overwrite. -/
def update_config (st : AgentState) (u : UpdateAlertConfigRequest) : AgentState :=
  { st with config :=
    { user_email := u.user_email.getD st.config.user_email
      enabled := u.enabled.getD st.config.enabled
      check_interval_seconds := u.check_interval_seconds.getD st.config.check_interval_seconds
      alert_on_sell_target := u.alert_on_sell_target.getD st.config.alert_on_sell_target
      alert_on_stop_loss := u.alert_on_stop_loss.getD st.config.alert_on_stop_loss
      alert_on_trailing_stop := u.alert_on_trailing_stop.getD st.config.alert_on_trailing_stop
      alert_on_bull_target := u.alert_on_bull_target.getD st.config.alert_on_bull_target
      send_daily_summary := u.send_daily_summary.getD st.config.send_daily_summary
      daily_summary_time := u.daily_summary_time.getD st.config.daily_summary_time
      email_provider := u.email_provider.getD st.config.email_provider } }

/-- Embedding of `AlertAgent.register_holdings` (whole-registry
replacement). -/
def register_holdings (st : AgentState) (holdings : List Holding) : AgentState :=
  { st with holdings := holdings }

/-- Embedding of `AlertAgent.send_test_alert`: for a registered symbol,
reset that cooldown and force one firing; unknown symbols are a no-op
returning `None`. -/
def send_test_alert (emailLog : AlertLogEntry) (newId : String) (now : ℚ)
    (symbol : String) (alert_type : AlertType) (st : AgentState) : AgentState :=
  match st.holdings.find? (fun h => h.symbol = symbol) with
  | none => st
  | some holding =>
      let total_value := (st.holdings.map (fun h => h.market_value.getD 0)).sum
      let st := reset_cooldown st symbol alert_type
      fire_alert emailLog newId now alert_type holding (holding.sell_target.getD 100)
        total_value st

/-- Embedding of `AlertAgent.stop`. -/
def agent_stop (st : AgentState) : AgentState := { st with status := "stopped" }

/-- One externally-triggered mutation of the agent: every method of
`AlertAgent` that writes its state (a firing carries its oracle inputs). -/
inductive AgentOp where
  | update_config (u : UpdateAlertConfigRequest)
  | register_holdings (holdings : List Holding)
  | reset_cooldown (symbol : String) (alert_type : AlertType)
  | fire (emailLog : AlertLogEntry) (newId : String) (now : ℚ) (alert_type : AlertType)
      (holding : Holding) (trigger_price total_portfolio_value : ℚ)
  | send_test_alert (emailLog : AlertLogEntry) (newId : String) (now : ℚ)
      (symbol : String) (alert_type : AlertType)
  | acknowledge (alert_id : String)
  | clear_all
  | stop

/-- Apply one operation to the agent state. -/
def applyOp (st : AgentState) : AgentOp → AgentState
  | .update_config u => update_config st u
  | .register_holdings hs => register_holdings st hs
  | .reset_cooldown sym ty => reset_cooldown st sym ty
  | .fire log id now ty h tp tv => fire_alert log id now ty h tp tv st
  | .send_test_alert log id now sym ty => send_test_alert log id now sym ty st
  | .acknowledge i => (acknowledge_alert st i).2
  | .clear_all => clear_all_alerts st
  | .stop => agent_stop st

/-- Run a sequence of operations from a state. -/
def runOps (st : AgentState) : List AgentOp → AgentState
  | [] => st
  | op :: ops => runOps (applyOp st op) ops

/-- Whether an operation fires an alert in state `st` (1 or 0): a `fire`
that passes the cooldown gate, or a `send_test_alert` for a registered
symbol (which always passes, having just reset its own cooldown). -/
def opFires (st : AgentState) : AgentOp → ℕ
  | .fire _ _ now ty h _ _ => if can_send st h.symbol ty now then 1 else 0
  | .send_test_alert _ _ _ sym _ =>
      if (st.holdings.find? (fun h => h.symbol = sym)).isSome then 1 else 0
  | _ => 0

/-- Total number of alerts fired along an operation sequence. -/
def countFired : AgentState → List AgentOp → ℕ
  | _, [] => 0
  | st, op :: ops => opFires st op + countFired (applyOp st op) ops

/-- The `GET /api/alerts/status` snapshot (`routers/alerts.get_status`),
without the two clock fields (`uptime_seconds` is the monotonic clock). -/
structure StatusSnapshot where
  status : String
  enabled : Bool
  user_email : String
  monitored_symbols : List String
  unacknowledged : ℕ
  alerts_today : ℕ
  check_interval_sec : ℕ
deriving Repr, DecidableEq

/-- Embedding of `routers/alerts.get_status`. -/
def get_status (st : AgentState) : StatusSnapshot :=
  { status := st.status
    enabled := st.config.enabled
    user_email := st.config.user_email
    monitored_symbols := st.holdings.map (·.symbol)
    unacknowledged := (st.in_app_alerts.filter (fun a => ¬ a.acknowledged)).length
    alerts_today := st.alerts_today
    check_interval_sec := st.config.check_interval_seconds }

end CLARA

namespace CLARA

/-! ## Helper lemmas about the rounding embedding -/

/-- `pyRoundInt` never undershoots its argument by more than `1/2`. -/
theorem pyRoundInt_ge (x : ℚ) : x - 1/2 ≤ (pyRoundInt x : ℚ) := by
  unfold pyRoundInt
  dsimp only
  have hf : (⌊x⌋ : ℚ) ≤ x := Int.floor_le x
  have hf' : x - 1 < (⌊x⌋ : ℚ) := by
    have := Int.lt_floor_add_one x
    linarith
  split_ifs with h1 h2 h3 <;> push_cast <;> linarith

/-- `pyRoundInt` never overshoots its argument by more than `1/2`. -/
theorem pyRoundInt_le (x : ℚ) : (pyRoundInt x : ℚ) ≤ x + 1/2 := by
  unfold pyRoundInt
  dsimp only
  have hf : (⌊x⌋ : ℚ) ≤ x := Int.floor_le x
  split_ifs with h1 h2 h3 <;> push_cast <;> linarith

/-- `round(x, n)` is within `10^(-n)/2` of `x` (below). -/
theorem pyRound_ge (n : ℕ) (x : ℚ) : x - 1 / (2 * 10 ^ n) ≤ pyRound n x := by
  unfold pyRound
  have hp : (0:ℚ) < 10 ^ n := by positivity
  rw [le_div_iff₀ hp]
  have h := pyRoundInt_ge (x * 10 ^ n)
  have he : (x - 1 / (2 * 10 ^ n)) * 10 ^ n = x * 10 ^ n - 1/2 := by
    field_simp
    ring
  rw [he]
  exact h


/-- `pyRound 2` always produces a value that is a whole number of cents. -/
theorem cents_pyRound (x : ℚ) : cents (pyRound 2 x) := by
  unfold cents pyRound
  have he : (pyRoundInt (x * 10 ^ 2) : ℚ) / 10 ^ 2 * 100 = (pyRoundInt (x * 10 ^ 2) : ℚ) := by
    norm_num
  rw [he, Rat.den_intCast]

/-! ## Claim C3 — stop-loss floor -/

/-- Counterexample to C3 as stated: at `current_price = 50`,
`avg_cost = 99.99`, `beta = 1` (all strictly positive), the raw stop loss
is floored at `0.85 * 99.99 = 84.9915`, but the final cent-rounding
produces `84.99 < 84.9915`, so `stop_loss ≥ 0.85 * avg_cost` fails. -/
theorem C3_counterexample :
    0 < (50:ℚ) ∧ 0 < (9999/100:ℚ) ∧ 0 < (1:ℚ) ∧
    (compute_price_targets 50 (9999/100) 1 none).stop_loss < 85/100 * (9999/100) := by
  refine ⟨by norm_num, by norm_num, by norm_num, ?_⟩
  simp only [compute_price_targets, pyRound, pyRoundInt]
  norm_num

/-- C3 (amended): for every positive current price, average cost and beta
(and any analyst target), the stop loss returned by
`compute_price_targets` is at least `0.85 * avg_cost` minus half a cent —
the floor is applied before the final rounding to cents, which can shave
off at most `$0.005`. -/
theorem C3_stop_loss_floor (current_price avg_cost beta : ℚ) (analyst_target : Option ℚ)
    (hc : 0 < current_price) (ha : 0 < avg_cost) (hb : 0 < beta) :
    85/100 * avg_cost - 1/200 ≤
      (compute_price_targets current_price avg_cost beta analyst_target).stop_loss := by
  have hkey : (compute_price_targets current_price avg_cost beta analyst_target).stop_loss =
      pyRound 2 (max (pyRound 2 (current_price * (1 - 8/100 - max (1/10) beta * 2/100)))
        (avg_cost * 85/100)) := by
    simp only [compute_price_targets]
  rw [hkey]
  have h1 := pyRound_ge 2
    (max (pyRound 2 (current_price * (1 - 8/100 - max (1/10) beta * 2/100))) (avg_cost * 85/100))
  have h2 : avg_cost * 85/100 ≤
      max (pyRound 2 (current_price * (1 - 8/100 - max (1/10) beta * 2/100)))
        (avg_cost * 85/100) := le_max_right _ _
  have : (1:ℚ) / (2 * 10 ^ 2) = 1/200 := by norm_num
  linarith [h1, h2]

/-- Witness for `C3_stop_loss_floor` at `current = 100`, `avg = 100`, `beta = 1`. -/
theorem C3_stop_loss_floor_witness :
    0 < (100:ℚ) ∧ 0 < (100:ℚ) ∧ 0 < (1:ℚ) ∧
    85/100 * (100:ℚ) - 1/200 ≤ (compute_price_targets 100 100 1 none).stop_loss :=
  ⟨by norm_num, by norm_num, by norm_num,
    C3_stop_loss_floor 100 100 1 none (by norm_num) (by norm_num) (by norm_num)⟩

/-! ## Claim C5 — breach severity classification -/

/-- Counterexample to C5 as stated: `actual = 110`, `threshold = 100`
gives an excess of exactly 10%, which the boundary-exclusive `< 10` test
places in the `"medium"` band, not `"low"` as the claim asserts. -/
theorem C5_counterexample :
    calculate_severity 110 100 = "medium" ∧ calculate_severity 110 100 ≠ "low" := by
  have h : calculate_severity 110 100 = "medium" := by
    simp only [calculate_severity]
    norm_num
  exact ⟨h, by rw [h]; decide⟩

/-- C5 (amended): for every breached threshold the severity is classified
by the excess percentage `(actual - threshold)/threshold*100` with
boundary-exclusive bands — `< 10%` low, `< 25%` medium, `< 50%` high,
otherwise critical; in particular `actual = 110, threshold = 100` (exactly
10% excess) classifies as `"medium"`, and `actual = 151, threshold = 100`
classifies as `"critical"`. -/
theorem C5_severity_bands (actual threshold : ℚ) :
    ((actual - threshold) / threshold * 100 < 10 → calculate_severity actual threshold = "low") ∧
    (10 ≤ (actual - threshold) / threshold * 100 → (actual - threshold) / threshold * 100 < 25 →
      calculate_severity actual threshold = "medium") ∧
    (25 ≤ (actual - threshold) / threshold * 100 → (actual - threshold) / threshold * 100 < 50 →
      calculate_severity actual threshold = "high") ∧
    (50 ≤ (actual - threshold) / threshold * 100 → calculate_severity actual threshold = "critical") ∧
    calculate_severity 110 100 = "medium" ∧ calculate_severity 151 100 = "critical" := by
  refine ⟨?_, ?_, ?_, ?_, ?_, ?_⟩
  · intro h; simp only [calculate_severity]; split_ifs <;> first | rfl | linarith
  · intro h1 h2; simp only [calculate_severity]; split_ifs <;> first | rfl | linarith
  · intro h1 h2; simp only [calculate_severity]; split_ifs <;> first | rfl | linarith
  · intro h; simp only [calculate_severity]; split_ifs <;> first | rfl | linarith
  · simp only [calculate_severity]; norm_num
  · simp only [calculate_severity]; norm_num

/-- Witness for `C5_severity_bands`: a 30% excess classifies as `"high"`. -/
theorem C5_severity_bands_witness :
    25 ≤ ((130:ℚ) - 100) / 100 * 100 ∧ ((130:ℚ) - 100) / 100 * 100 < 50 ∧
    calculate_severity 130 100 = "high" :=
  ⟨by norm_num, by norm_num,
    (C5_severity_bands 130 100).2.2.1 (by norm_num) (by norm_num)⟩

/-! ## Claim C8 — price-target formulas and rounding -/

/-- Counterexample to C8 as stated: with a sub-cent analyst target
`123.456` exceeding the current price `100`, the returned sell target is
the analyst value verbatim — it is *not* rounded to cents, refuting
"every one of the five returned targets is rounded to cents". -/
theorem C8_counterexample :
    (compute_price_targets 100 90 1 (some (123456/1000))).sell_target = 123456/1000 ∧
    ¬ cents (compute_price_targets 100 90 1 (some (123456/1000))).sell_target := by
  have h : (compute_price_targets 100 90 1 (some (123456/1000))).sell_target = 123456/1000 := by
    simp only [compute_price_targets, pyRound, pyRoundInt]
    norm_num
  refine ⟨h, ?_⟩
  rw [h]
  simp only [cents]
  norm_num

/-- C8 (amended): the sell target equals the analyst target verbatim
(unrounded) whenever one is supplied and exceeds the positive current
price; otherwise it is `current * (1 + 0.15 + max(0.1, beta)*0.05)`
rounded to cents. The other four targets (stop loss, trailing stop, bull,
conservative) are always rounded to cents; the pass-through analyst sell
target is the one value that need not be. -/
theorem C8_price_targets (current_price avg_cost beta : ℚ) (analyst : Option ℚ)
    (hc : 0 < current_price) :
    (∀ t, analyst = some t → current_price < t →
      (compute_price_targets current_price avg_cost beta analyst).sell_target = t) ∧
    (∀ t, analyst = some t → t ≤ current_price →
      (compute_price_targets current_price avg_cost beta analyst).sell_target =
        pyRound 2 (current_price * (1 + 15/100 + max (1/10) beta * 5/100))) ∧
    (analyst = none →
      (compute_price_targets current_price avg_cost beta analyst).sell_target =
        pyRound 2 (current_price * (1 + 15/100 + max (1/10) beta * 5/100))) ∧
    cents (compute_price_targets current_price avg_cost beta analyst).stop_loss ∧
    cents (compute_price_targets current_price avg_cost beta analyst).trailing_stop ∧
    cents (compute_price_targets current_price avg_cost beta analyst).bull_target ∧
    cents (compute_price_targets current_price avg_cost beta analyst).conservative_target := by
  refine ⟨?_, ?_, ?_, ?_, ?_, ?_, ?_⟩
  · intro t ht hgt
    subst ht
    simp only [compute_price_targets]
    rw [if_pos ⟨by linarith, hgt⟩]
  · intro t ht hle
    subst ht
    simp only [compute_price_targets]
    rw [if_neg (by rintro ⟨-, hgt⟩; linarith)]
  · intro ht; subst ht; simp only [compute_price_targets]
  · simp only [compute_price_targets]; exact cents_pyRound _
  · simp only [compute_price_targets]; exact cents_pyRound _
  · simp only [compute_price_targets]; exact cents_pyRound _
  · simp only [compute_price_targets]; exact cents_pyRound _

/-- Witness for `C8_price_targets`: an analyst target of `$120 > $100` is
returned verbatim as the sell target. -/
theorem C8_price_targets_witness :
    0 < (100:ℚ) ∧ (100:ℚ) < 120 ∧
    (compute_price_targets 100 90 1 (some 120)).sell_target = 120 :=
  ⟨by norm_num, by norm_num,
    (C8_price_targets 100 90 1 (some 120) (by norm_num)).1 120 rfl (by norm_num)⟩

/-! ## Claim C7 — dollar-cost-average merge -/

/-- `replaceFirst` preserves the length of the store: a merge never adds
an entry. -/
theorem replaceFirst_length (p : PortfolioPosition → Bool) (x : PortfolioPosition) :
    ∀ l : List PortfolioPosition, (replaceFirst p x l).length = l.length := by
  intro l
  induction l with
  | nil => rfl
  | cons a rest ih =>
      simp only [replaceFirst]
      split_ifs <;> simp [ih]

/-- Counterexample to C7 as stated: merging 1 share @ `$100.0001` into an
existing 3 shares @ `$100` gives a weighted average of `$100.000025`,
which the source stores rounded to 4 decimal places as `$100.0000` — not
equal to the claimed exact quotient. -/
theorem C7_counterexample :
    (add_position
        [(⟨"id-1", "AAPL", "Apple Inc.", 3, 100, none, some "Technology"⟩ : PortfolioPosition)]
        ⟨"AAPL", 1, 1000001/10000, none⟩ "id-2").2.avg_cost ≠
      (3 * 100 + 1 * (1000001/10000)) / (3 + 1) := by
  simp only [add_position, List.find?, pyRound, pyRoundInt]
  norm_num

/-- C7 (amended): adding a position whose symbol already exists merges
the two lots into the first stored lot with that symbol: the store keeps
its size, the merged share count is `old + new` rounded to 6 decimal
places, and the merged average cost is
`(old_shares*old_avg + new_shares*new_avg) / (old_shares+new_shares)`
rounded to 4 decimal places (so 10 @ \$100 onto 10 @ \$80 still yields
20 shares @ exactly \$90.00). -/
theorem C7_dca_merge (store : List PortfolioPosition) (req : AddPositionRequest)
    (newId : String) (e : PortfolioPosition)
    (hfind : store.find? (fun p => p.symbol = req.symbol) = some e) :
    (add_position store req newId).2.shares = pyRound 6 (e.shares + req.shares) ∧
    (add_position store req newId).2.avg_cost =
      pyRound 4 ((e.shares * e.avg_cost + req.shares * req.avg_cost) /
        (e.shares + req.shares)) ∧
    (add_position store req newId).1.length = store.length := by
  refine ⟨?_, ?_, ?_⟩
  · simp only [add_position, hfind]
  · simp only [add_position, hfind]
  · simp only [add_position, hfind]
    exact replaceFirst_length _ _ _

/-- Witness for `C7_dca_merge`: the spec's concrete instance — 10 shares
@ \$100 added onto 10 shares @ \$80 yields 20 shares @ \$90.00. -/
theorem C7_dca_merge_witness :
    ([(⟨"id-1", "AAPL", "Apple Inc.", 10, 80, none, some "Technology"⟩ : PortfolioPosition)].find?
        (fun p => p.symbol = ("AAPL":String)) =
      some ⟨"id-1", "AAPL", "Apple Inc.", 10, 80, none, some "Technology"⟩) ∧
    (add_position
        [(⟨"id-1", "AAPL", "Apple Inc.", 10, 80, none, some "Technology"⟩ : PortfolioPosition)]
        ⟨"AAPL", 10, 100, none⟩ "id-2").2.shares = 20 ∧
    (add_position
        [(⟨"id-1", "AAPL", "Apple Inc.", 10, 80, none, some "Technology"⟩ : PortfolioPosition)]
        ⟨"AAPL", 10, 100, none⟩ "id-2").2.avg_cost = 90 := by
  have h := C7_dca_merge
    [(⟨"id-1", "AAPL", "Apple Inc.", 10, 80, none, some "Technology"⟩ : PortfolioPosition)]
    ⟨"AAPL", 10, 100, none⟩ "id-2"
    ⟨"id-1", "AAPL", "Apple Inc.", 10, 80, none, some "Technology"⟩ (by simp [List.find?])
  refine ⟨by simp [List.find?], ?_, ?_⟩
  · rw [h.1]
    simp only [pyRound, pyRoundInt]
    norm_num
  · rw [h.2.1]
    simp only [pyRound, pyRoundInt]
    norm_num

/-! ## Claim C2 — batch quote resolution totality -/

/-- Lookup in the dict built by the `get_quotes_batch` loop: requested
symbols map to their resolved quote (simulated on failure), everything
else stays at the accumulator. -/
theorem get_quotes_batch_foldl {Q : Type} (fetch : String → Except Unit Q) (sim : String → Q) :
    ∀ (symbols : List String) (acc : String → Option Q) (s : String),
      symbols.foldl
        (fun output sym =>
          Function.update output sym
            (some (match fetch sym with
                   | .error _ => sim sym
                   | .ok res => res))) acc s =
        if s ∈ symbols then
          some (match fetch s with
                | .error _ => sim s
                | .ok res => res)
        else acc s := by
  intro symbols
  induction symbols with
  | nil => intro acc s; simp
  | cons a t ih =>
      intro acc s
      rw [List.foldl_cons, ih]
      by_cases hs : s ∈ t
      · simp [hs]
      · by_cases ha : s = a
        · subst ha
          simp [hs, Function.update_same]
        · simp [hs, ha, Function.update_noteq ha]

/-- C2: `get_quotes_batch` returns exactly one entry for every requested
symbol and none for the rest; a symbol whose individual resolution raised
(`Except.error` through `gather(..., return_exceptions=True)`) gets the
simulated quote substituted for it alone, a successful one its fetched
quote.  The function is total (it never propagates an exception) by the
type of the embedding. -/
theorem C2_batch_totality {Q : Type} (fetch : String → Except Unit Q) (sim : String → Q)
    (symbols : List String) (sym : String) :
    (sym ∈ symbols →
      get_quotes_batch fetch sim symbols sym =
        some (match fetch sym with
              | .error _ => sim sym
              | .ok res => res)) ∧
    (sym ∉ symbols → get_quotes_batch fetch sim symbols sym = none) := by
  unfold get_quotes_batch
  rw [get_quotes_batch_foldl]
  constructor
  · intro h; simp [h]
  · intro h; simp [h]

/-- Witness for `C2_batch_totality`: the spec scenario
`["AAPL", "ZZZZINVALID"]` where resolving `"ZZZZINVALID"` raises — the
batch returns two entries, one live and one simulated. -/
theorem C2_batch_totality_witness :
    ("AAPL" ∈ ["AAPL", "ZZZZINVALID"] ∧ "ZZZZINVALID" ∈ ["AAPL", "ZZZZINVALID"]) ∧
    get_quotes_batch
        (fun s => if s = "ZZZZINVALID" then .error () else .ok ("live-" ++ s))
        (fun s => "sim-" ++ s) ["AAPL", "ZZZZINVALID"] "AAPL" = some "live-AAPL" ∧
    get_quotes_batch
        (fun s => if s = "ZZZZINVALID" then .error () else .ok ("live-" ++ s))
        (fun s => "sim-" ++ s) ["AAPL", "ZZZZINVALID"] "ZZZZINVALID" = some "sim-ZZZZINVALID" := by
  have h1 := (C2_batch_totality
    (fun s => if s = "ZZZZINVALID" then .error () else .ok ("live-" ++ s))
    (fun s => "sim-" ++ s) ["AAPL", "ZZZZINVALID"] "AAPL").1 (by simp)
  have h2 := (C2_batch_totality
    (fun s => if s = "ZZZZINVALID" then .error () else .ok ("live-" ++ s))
    (fun s => "sim-" ++ s) ["AAPL", "ZZZZINVALID"] "ZZZZINVALID").1 (by simp)
  refine ⟨⟨by simp, by simp⟩, ?_, ?_⟩
  · simpa using h1
  · simpa using h2

/-! ## Claim C6 — empty-portfolio behaviour -/

/-- C6: `compute_portfolio_summary` of an empty position list is the
all-zero summary (no division is attempted), whatever the Sharpe oracle
draws; and the `/api/portfolio/var` route rejects an empty portfolio
with an explicit `400 "No positions in portfolio"` result instead of
computing (or crashing). -/
theorem C6_empty_portfolio :
    (∀ sharpe : ℚ, compute_portfolio_summary sharpe [] =
      { total_value := 0, cost_basis := 0, total_gain_loss := 0, total_gain_loss_pct := 0,
        day_gain_loss := 0, portfolio_beta := 0, positions_count := 0, var_1d_95 := 0,
        expected_shortfall := 0, sharpe_ratio := none }) ∧
    (∀ quotes : String → Option QuoteLite,
      get_var_route quotes [] = .error (400, "No positions in portfolio")) := by
  constructor
  · intro sharpe; rfl
  · intro quotes
    simp [get_var_route]

/-! ## Helper lemmas for the real-valued rounding -/

/-- Evaluate `rroundInt` when the fractional part is below one half. -/
theorem rroundInt_floor_lt (x : ℝ) (f : ℤ) (h1 : (f:ℝ) ≤ x) (h2 : x < f + 1/2) :
    rroundInt x = f := by
  have hf : ⌊x⌋ = f := Int.floor_eq_iff.mpr ⟨h1, by push_cast; linarith⟩
  unfold rroundInt
  dsimp only
  rw [hf, if_pos (by push_cast; linarith)]

/-- Evaluate `rroundInt` when the fractional part is above one half. -/
theorem rroundInt_floor_gt (x : ℝ) (f : ℤ) (h1 : (f:ℝ) + 1/2 < x) (h2 : x < f + 1) :
    rroundInt x = f + 1 := by
  have hf : ⌊x⌋ = f := Int.floor_eq_iff.mpr ⟨by push_cast at h1 ⊢; linarith, by push_cast; linarith⟩
  unfold rroundInt
  dsimp only
  rw [hf, if_neg (by push_cast; linarith), if_pos (by push_cast; linarith)]

/-- Evaluate `round(x, 2)` over `ℝ`, rounding down. -/
theorem rround_two_dn (x : ℝ) (k : ℤ) (h1 : (k:ℝ) ≤ x * 100) (h2 : x * 100 < k + 1/2) :
    rround 2 x = (k:ℝ) / 100 := by
  unfold rround
  have h : x * 10 ^ 2 = x * 100 := by norm_num
  rw [h, rroundInt_floor_lt (x*100) k h1 h2]
  norm_num

/-- Evaluate `round(x, 2)` over `ℝ`, rounding up. -/
theorem rround_two_up (x : ℝ) (k : ℤ) (h1 : (k:ℝ) + 1/2 < x * 100) (h2 : x * 100 < k + 1) :
    rround 2 x = ((k:ℝ) + 1) / 100 := by
  unfold rround
  have h : x * 10 ^ 2 = x * 100 := by norm_num
  rw [h, rroundInt_floor_gt (x*100) k h1 h2]
  push_cast
  norm_num

/-- `rroundInt` moves its argument by at most one half. -/
theorem abs_rroundInt_sub (x : ℝ) : |(rroundInt x : ℝ) - x| ≤ 1/2 := by
  unfold rroundInt
  dsimp only
  have hf : (⌊x⌋ : ℝ) ≤ x := Int.floor_le x
  have hf2 : x < (⌊x⌋ : ℝ) + 1 := Int.lt_floor_add_one x
  rw [abs_le]
  split_ifs with h1 h2 h3 <;> push_cast <;> constructor <;> linarith

/-- `round(x, 2)` moves its argument by at most half a cent. -/
theorem abs_rround_two_sub (x : ℝ) : |rround 2 x - x| ≤ 1/200 := by
  unfold rround
  have h := abs_rroundInt_sub (x * 10 ^ 2)
  have he : (rroundInt (x * 10 ^ 2) : ℝ) / 10 ^ 2 - x =
      ((rroundInt (x * 10 ^ 2) : ℝ) - x * 10 ^ 2) / 10 ^ 2 := by
    field_simp
    ring
  rw [he, abs_div]
  have h100 : |(10:ℝ) ^ 2| = 100 := by norm_num
  rw [h100, div_le_iff (by norm_num : (0:ℝ) < 100)]
  linarith

/-- Rational bracketing of `math.sqrt(10)`. -/
theorem sqrt10_bounds : (3.162277:ℝ) < Real.sqrt 10 ∧ Real.sqrt 10 < 3.162278 := by
  constructor
  · have h : (3.162277:ℝ) = Real.sqrt (3.162277^2) := (Real.sqrt_sq (by norm_num)).symm
    rw [h]
    exact Real.sqrt_lt_sqrt (by positivity) (by norm_num)
  · have h : (3.162278:ℝ) = Real.sqrt (3.162278^2) := (Real.sqrt_sq (by norm_num)).symm
    rw [h]
    exact Real.sqrt_lt_sqrt (by norm_num) (by norm_num)

/-! ## Claim C4 — square-root-of-time scaling -/

/-- Counterexample to C4 as stated: for a single position of market value
`$1000` and beta 1, the stored 1-day 95% VaR is `$20.73` and the stored
10-day value is `round(20.73·√10, 2) = $65.55`, while `20.73·√10` itself
is `65.554…` — the cent rounding makes exact equality fail (indeed the
exact product is irrational while every stored value is a whole number of
cents). -/
theorem C4_counterexample :
    (compute_var [⟨1000, 1⟩]).var_10d_95 ≠
      (compute_var [⟨1000, 1⟩]).var_1d_95 * Real.sqrt 10 := by
  have hs := sqrt10_bounds
  have h95 : (compute_var [⟨1000, 1⟩]).var_1d_95 = 2073/100 := by
    norm_num [compute_var]
    rw [rround_two_up (20727/1000) 2072 (by norm_num) (by norm_num)]
    norm_num
  have h10 : (compute_var [⟨1000, 1⟩]).var_10d_95 = 6555/100 := by
    norm_num [compute_var]
    rw [rround_two_up (20727/1000) 2072 (by norm_num) (by norm_num)]
    push_cast
    norm_num
    rw [rround_two_dn ((2073:ℝ)/100 * Real.sqrt 10) 6555 (by nlinarith [hs.1])
      (by nlinarith [hs.2])]
    norm_num
  rw [h95, h10]
  intro heq
  nlinarith [hs.1]

/-- C4 (amended): for every portfolio, the 10-day VaR stored by
`compute_var` equals the (stored, cent-rounded) 1-day VaR multiplied by
`√10` and rounded to cents again — so it is within half a cent of the
exact square-root-of-time scaling, at both confidence levels, but not
equal to it exactly. -/
theorem C4_sqrt_time_scaling (positions : List VPos) :
    (compute_var positions).var_10d_95 =
      rround 2 ((compute_var positions).var_1d_95 * Real.sqrt 10) ∧
    (compute_var positions).var_10d_99 =
      rround 2 ((compute_var positions).var_1d_99 * Real.sqrt 10) ∧
    |(compute_var positions).var_10d_95 -
      (compute_var positions).var_1d_95 * Real.sqrt 10| ≤ 1/200 ∧
    |(compute_var positions).var_10d_99 -
      (compute_var positions).var_1d_99 * Real.sqrt 10| ≤ 1/200 :=
  ⟨rfl, rfl, abs_rround_two_sub _, abs_rround_two_sub _⟩

/-! ## Claim C9 — rate-sensitivity sector multiplier -/

/-- C9 evidence: the repository's own metadata labels its financial
stocks `"Financials"` (JPMorgan, Bank of America, Visa, Mastercard) and
assigns the labels `"Financial Services"` / `"Real Estate"` to no symbol
at all, yet `_perturb_positions` grants the larger `1.5×` rates
multiplier only to those two unused labels — so a `"Financials"` position
gets exactly the same `0.5×` multiplier as a `"Technology"` one, not a
strictly larger one. -/
theorem C9_rates_multiplier_bug :
    ((COMPANY_META "JPM").map (·.sector) = some "Financials") ∧
    ((COMPANY_META "BAC").map (·.sector) = some "Financials") ∧
    (∀ s m, COMPANY_META s = some m →
      m.sector ≠ "Financial Services" ∧ m.sector ≠ "Real Estate") ∧
    (perturb_position "rates" (1/5) ⟨11/10, 1000, "Financials"⟩).beta =
      11/10 * (1 + 1/5 * (5/10)) ∧
    (perturb_position "rates" (1/5) ⟨11/10, 1000, "Technology"⟩).beta =
      11/10 * (1 + 1/5 * (5/10)) := by
  refine ⟨by rfl, by rfl, ?_, ?_, ?_⟩
  · intro s m hm
    unfold COMPANY_META at hm
    rcases Option.map_eq_some'.mp hm with ⟨e, hfind, hm2⟩
    subst hm2
    have he := List.mem_of_find?_eq_some hfind
    have hall : ∀ e ∈ COMPANY_META_LIST,
        e.2.sector ≠ "Financial Services" ∧ e.2.sector ≠ "Real Estate" := by decide
    exact hall e he
  · simp only [perturb_position, String.reduceEq, reduceIte]
    norm_num
  · simp only [perturb_position, String.reduceEq, reduceIte]
    norm_num

/-- Witness for `C9_rates_multiplier_bug`: applying its universal
conjunct to the JPM metadata entry. -/
theorem C9_rates_multiplier_bug_witness :
    COMPANY_META "JPM" = some ⟨"JPMorgan Chase & Co.", "Financials", 197, 110/100⟩ ∧
    (⟨"JPMorgan Chase & Co.", "Financials", 197, 110/100⟩ : CompanyMeta).sector ≠
      "Financial Services" :=
  ⟨by rfl,
    (C9_rates_multiplier_bug.2.2.1 "JPM" ⟨"JPMorgan Chase & Co.", "Financials", 197, 110/100⟩
      (by rfl)).1⟩

/-! ## Claim C1 — cooldown deduplication: helper lemmas -/

/-- The e-mail back-fill rewrites an alert in place: the buffer length is
unchanged. -/
theorem set_email_sent_length (i : String) (v : Bool) :
    ∀ l : List InAppAlert, (set_email_sent l i v).length = l.length := by
  intro l
  induction l with
  | nil => rfl
  | cons a rest ih =>
      simp only [set_email_sent]
      split_ifs <;> simp [ih]

/-- `_fire_alert` never touches the configuration. -/
theorem fire_alert_config (log : AlertLogEntry) (id : String) (now : ℚ) (ty : AlertType)
    (h : Holding) (tp tv : ℚ) (st : AgentState) :
    (fire_alert log id now ty h tp tv st).config = st.config := by
  unfold fire_alert
  dsimp only
  split_ifs <;> rfl

/-- When the cooldown gate passes, `_fire_alert` marks the `(symbol,
alert_type)` key at the firing time — and does so whatever the e-mail
dispatch later returns, since `_mark_sent` runs before the dispatch. -/
theorem fire_alert_cooldowns (log : AlertLogEntry) (id : String) (now : ℚ) (ty : AlertType)
    (h : Holding) (tp tv : ℚ) (st : AgentState)
    (hc : can_send st h.symbol ty now = true) :
    (fire_alert log id now ty h tp tv st).cooldowns =
      Function.update st.cooldowns (h.symbol, ty) (some now) := by
  unfold fire_alert
  dsimp only
  rw [if_pos hc]
  split_ifs <;> simp [mark_sent]

/-- When the cooldown gate blocks, `_fire_alert` is a complete no-op. -/
theorem fire_alert_blocked (log : AlertLogEntry) (id : String) (now : ℚ) (ty : AlertType)
    (h : Holding) (tp tv : ℚ) (st : AgentState)
    (hc : can_send st h.symbol ty now = false) :
    fire_alert log id now ty h tp tv st = st := by
  unfold fire_alert
  dsimp only
  rw [if_neg (by simp [hc])]

/-- A passing fire with notifications enabled and a destination
configured adds exactly one in-app alert and one e-mail log entry
(below the ring-buffer caps). -/
theorem fire_alert_lengths (log : AlertLogEntry) (id : String) (now : ℚ) (ty : AlertType)
    (h : Holding) (tp tv : ℚ) (st : AgentState)
    (hc : can_send st h.symbol ty now = true)
    (he : st.config.enabled = true) (hm : st.config.user_email ≠ "")
    (hlen : st.in_app_alerts.length < 200) (hlog : st.email_logs.length < 500) :
    (fire_alert log id now ty h tp tv st).in_app_alerts.length =
      st.in_app_alerts.length + 1 ∧
    (fire_alert log id now ty h tp tv st).email_logs.length =
      st.email_logs.length + 1 := by
  unfold fire_alert
  dsimp only
  rw [if_pos hc]
  split_ifs with h2
  · constructor
    · simp only [set_email_sent_length, List.length_take, mark_sent, List.length_cons]
      omega
    · simp only [List.length_take, List.length_cons, mark_sent]
      omega
  · exfalso
    apply h2
    simp only [mark_sent]
    exact ⟨he, hm⟩

/-- `_fire_alert` bumps `alerts_today` by one exactly when the cooldown
gate passes. -/
theorem fire_alert_alerts_today (log : AlertLogEntry) (id : String) (now : ℚ) (ty : AlertType)
    (h : Holding) (tp tv : ℚ) (st : AgentState) :
    (fire_alert log id now ty h tp tv st).alerts_today =
      st.alerts_today + (if can_send st h.symbol ty now then 1 else 0) := by
  unfold fire_alert
  dsimp only
  split_ifs with h1 h2 <;> simp [mark_sent, h1]

/-! ## Claim C10 — the alerts_today counter -/

/-- Per-operation accounting: each agent mutation bumps `alerts_today`
by exactly the number of alerts it fires (0 or 1), and nothing ever
decreases or resets it. -/
theorem applyOp_alerts_today (st : AgentState) (op : AgentOp) :
    (applyOp st op).alerts_today = st.alerts_today + opFires st op := by
  cases op with
  | fire log id now ty h tp tv => exact fire_alert_alerts_today log id now ty h tp tv st
  | send_test_alert log id now sym ty =>
      cases hfind : st.holdings.find? (fun h => h.symbol = sym) with
      | none => simp [applyOp, send_test_alert, opFires, hfind]
      | some h0 =>
          have hsym : h0.symbol = sym := by
            have := List.find?_some hfind
            simpa using this
          have hcs : can_send (reset_cooldown st sym ty) h0.symbol ty now = true := by
            simp [can_send, reset_cooldown, hsym, Function.update_same]
          simp only [applyOp, send_test_alert, opFires, hfind, Option.isSome_some, if_true]
          rw [fire_alert_alerts_today, hcs]
          simp [reset_cooldown]
  | acknowledge i =>
      simp only [applyOp, acknowledge_alert, opFires]
      split_ifs <;> rfl
  | update_config u => rfl
  | register_holdings hs => rfl
  | reset_cooldown sym ty => rfl
  | clear_all => rfl
  | stop => rfl

/-- Accounting along a whole operation sequence. -/
theorem runOps_alerts_today :
    ∀ (ops : List AgentOp) (st : AgentState),
      (runOps st ops).alerts_today = st.alerts_today + countFired st ops := by
  intro ops
  induction ops with
  | nil => intro st; simp [runOps, countFired]
  | cons op ops ih =>
      intro st
      simp only [runOps, countFired]
      rw [ih, applyOp_alerts_today]
      omega

/-- C10: the `alerts_today` counter reported by the `/api/alerts/status`
snapshot equals the total number of alerts fired since the agent object
was constructed, over every sequence of agent operations — there is no
date-rollover (or any other) reset, and no operation ever decreases it. -/
theorem C10_alerts_today_counter :
    (∀ ops : List AgentOp,
      (get_status (runOps AlertAgent_init ops)).alerts_today =
        countFired AlertAgent_init ops) ∧
    (∀ (st : AgentState) (op : AgentOp), st.alerts_today ≤ (applyOp st op).alerts_today) := by
  constructor
  · intro ops
    show (runOps AlertAgent_init ops).alerts_today = _
    rw [runOps_alerts_today]
    simp [AlertAgent_init]
  · intro st op
    rw [applyOp_alerts_today]
    omega

/-! ## Claim C1 — cooldown deduplication -/

/-- C1: once an alert fires for a `(symbol, alert-type)` key, the
cooldown entry is marked at the firing time — before and independently
of the e-mail dispatch outcome — and a second firing attempt within the
cooldown window is a complete no-op, so two attempts in the window
produce exactly one in-app alert and one e-mail attempt; an attempt
strictly after the window elapses fires again, producing the second
alert and second e-mail attempt. -/
theorem C1_cooldown_dedup
    (st0 : AgentState) (hold : Holding) (ty : AlertType)
    (o1 o2 o3 : AlertLogEntry) (id1 id2 id3 : String) (t1 t2 t3 tp tv : ℚ)
    (hcan : can_send st0 hold.symbol ty t1 = true)
    (henab : st0.config.enabled = true)
    (hmail : st0.config.user_email ≠ "")
    (hlen : st0.in_app_alerts.length < 199)
    (hlog : st0.email_logs.length < 499)
    (hwithin : t2 - t1 ≤ ALERT_COOLDOWN_HOURS)
    (hafter : ALERT_COOLDOWN_HOURS < t3 - t1) :
    (fire_alert o1 id1 t1 ty hold tp tv st0).cooldowns (hold.symbol, ty) = some t1 ∧
    (fire_alert o1 id1 t1 ty hold tp tv st0).cooldowns =
      (fire_alert o2 id1 t1 ty hold tp tv st0).cooldowns ∧
    (fire_alert o1 id1 t1 ty hold tp tv st0).in_app_alerts.length =
      st0.in_app_alerts.length + 1 ∧
    (fire_alert o1 id1 t1 ty hold tp tv st0).email_logs.length =
      st0.email_logs.length + 1 ∧
    fire_alert o2 id2 t2 ty hold tp tv (fire_alert o1 id1 t1 ty hold tp tv st0) =
      fire_alert o1 id1 t1 ty hold tp tv st0 ∧
    (fire_alert o3 id3 t3 ty hold tp tv
        (fire_alert o1 id1 t1 ty hold tp tv st0)).in_app_alerts.length =
      st0.in_app_alerts.length + 2 ∧
    (fire_alert o3 id3 t3 ty hold tp tv
        (fire_alert o1 id1 t1 ty hold tp tv st0)).email_logs.length =
      st0.email_logs.length + 2 := by
  set st1 := fire_alert o1 id1 t1 ty hold tp tv st0 with hst1
  have hcd : st1.cooldowns = Function.update st0.cooldowns (hold.symbol, ty) (some t1) :=
    fire_alert_cooldowns o1 id1 t1 ty hold tp tv st0 hcan
  have hkey : st1.cooldowns (hold.symbol, ty) = some t1 := by
    rw [hcd, Function.update_same]
  have hcfg : st1.config = st0.config := fire_alert_config o1 id1 t1 ty hold tp tv st0
  have hlens := fire_alert_lengths o1 id1 t1 ty hold tp tv st0 hcan henab hmail
    (by omega) (by omega)
  have hcs2 : can_send st1 hold.symbol ty t2 = false := by
    unfold can_send
    rw [hkey]
    simp only [decide_eq_false_iff_not]
    exact not_lt.mpr hwithin
  have hcs3 : can_send st1 hold.symbol ty t3 = true := by
    unfold can_send
    rw [hkey]
    simp only [decide_eq_true_eq]
    exact hafter
  have hlens3 := fire_alert_lengths o3 id3 t3 ty hold tp tv st1 hcs3
    (by rw [hcfg]; exact henab) (by rw [hcfg]; exact hmail)
    (by rw [hlens.1]; omega) (by rw [hlens.2]; omega)
  refine ⟨hkey, ?_, hlens.1, hlens.2, ?_, ?_, ?_⟩
  · rw [hcd, fire_alert_cooldowns o2 id1 t1 ty hold tp tv st0 hcan]
  · exact fire_alert_blocked o2 id2 t2 ty hold tp tv st1 hcs2
  · rw [hlens3.1, hlens.1]
  · rw [hlens3.2, hlens.2]

/-- Witness for `C1_cooldown_dedup`: a fresh enabled agent with a
configured destination, firing for AAPL at `t = 0`, re-firing at `t = 2`
(inside the 4-hour window: no-op) and at `t = 5` (outside: fires). -/
theorem C1_cooldown_dedup_witness :
    (can_send { AlertAgent_init with
        config := { enabled := true, user_email := "user@example.com" } }
      "AAPL" .sell_target_hit 0 = true) ∧
    ((2:ℚ) - 0 ≤ ALERT_COOLDOWN_HOURS) ∧ (ALERT_COOLDOWN_HOURS < (5:ℚ) - 0) ∧
    (fire_alert ⟨true, "smtp", none⟩ "id-1" 0 .sell_target_hit { symbol := "AAPL" } 100 1000
      { AlertAgent_init with
        config := { enabled := true, user_email := "user@example.com" } }).in_app_alerts.length
      = 1 ∧
    (fire_alert ⟨true, "smtp", none⟩ "id-1" 0 .sell_target_hit { symbol := "AAPL" } 100 1000
      { AlertAgent_init with
        config := { enabled := true, user_email := "user@example.com" } }).email_logs.length
      = 1 ∧
    fire_alert ⟨true, "smtp", none⟩ "id-2" 2 .sell_target_hit { symbol := "AAPL" } 100 1000
      (fire_alert ⟨true, "smtp", none⟩ "id-1" 0 .sell_target_hit { symbol := "AAPL" } 100 1000
        { AlertAgent_init with
          config := { enabled := true, user_email := "user@example.com" } }) =
      fire_alert ⟨true, "smtp", none⟩ "id-1" 0 .sell_target_hit { symbol := "AAPL" } 100 1000
        { AlertAgent_init with
          config := { enabled := true, user_email := "user@example.com" } } ∧
    (fire_alert ⟨true, "smtp", none⟩ "id-3" 5 .sell_target_hit { symbol := "AAPL" } 100 1000
      (fire_alert ⟨true, "smtp", none⟩ "id-1" 0 .sell_target_hit { symbol := "AAPL" } 100 1000
        { AlertAgent_init with
          config := { enabled := true, user_email := "user@example.com" } })).in_app_alerts.length
      = 2 := by
  have h := C1_cooldown_dedup
    { AlertAgent_init with config := { enabled := true, user_email := "user@example.com" } }
    { symbol := "AAPL" } .sell_target_hit
    ⟨true, "smtp", none⟩ ⟨true, "smtp", none⟩ ⟨true, "smtp", none⟩
    "id-1" "id-2" "id-3" 0 2 5 100 1000
    (by rfl) (by rfl) (by decide) (by decide) (by decide)
    (by norm_num [ALERT_COOLDOWN_HOURS]) (by norm_num [ALERT_COOLDOWN_HOURS])
  refine ⟨by rfl, by norm_num [ALERT_COOLDOWN_HOURS], by norm_num [ALERT_COOLDOWN_HOURS],
    ?_, ?_, h.2.2.2.2.1, ?_⟩
  · simpa [AlertAgent_init] using h.2.2.1
  · simpa [AlertAgent_init] using h.2.2.2.1
  · simpa [AlertAgent_init] using h.2.2.2.2.2.1

end CLARA
